import Mathlib

/-!
Shallow embedding of a small todo-list web application, consisting of a
Redux-style store (src/store/index.ts), a list view with an all-done flag and
a per-item toggle handler (src/components/MainApp/index.tsx), a user
assignment dropdown (src/components/UserSelect/index.tsx) and a text input
widget (InputNewTodo).

Modelling conventions:
* JavaScript strings are Lean `String`s; `String.prototype.trim` is embedded
  as `jsTrim` below (dropping whitespace from both ends of the char list).
* Machine numbers occurring as list indices are embedded as `Int` (the UI
  always passes natural map indices, but the store accepts any number).
* The `user` field of a todo is dynamically typed in the source (the reducer
  never inspects it, and one handler stores a DOM string into it), so it is
  embedded as an optional tagged JS value `JsVal`.
* Redux actions are `{type: string, payload}` objects; the tag is a free-form
  string in the source (several dispatch sites use mistyped tags), so the
  embedding keeps it a `String` rather than an enumeration.
* Most claims concern the value (content) of the todo list, for which the
  reducer is embedded value-level as `reducer`.  Claims about reference
  identity and in-place mutation are settled against `reducerRef`, the same
  switch statement embedded over an explicit heap of arrays: addresses are
  `Nat`, the heap maps an address to the array's contents, and the store
  state object holds the address of its `todos` array.  `Array.push` mutates
  the heap cell in place; array literals, `filter` results and spreads
  allocate fresh addresses.
-/

namespace TodoApp

/-- A dynamically typed JavaScript value as stored in the `user` field:
either a numeric user id or a raw DOM string. -/
inductive JsVal where
  | num (n : Int)
  | str (s : String)
deriving DecidableEq, Repr

/-- The `Todo` record: `{ title: string, user?: number, isDone: boolean }`
(the `user` field is dynamically typed in practice, see `JsVal`). -/
structure Todo where
  title : String
  user : Option JsVal := none
  isDone : Bool
deriving DecidableEq, Repr

/-- JavaScript `String.prototype.trim`: remove whitespace from both ends. -/
def jsTrim (s : String) : String :=
  ⟨((s.data.dropWhile Char.isWhitespace).reverse.dropWhile Char.isWhitespace).reverse⟩

/-- Payload of a dispatched action: the source dispatches a todo object
(`ADD_TODO`), a numeric index (`REMOVE_TODO` / `REMOVE_TODOS`), or a whole
todos array (`CHANGE_TODOS` / `CHANGE_TODO`). -/
inductive Payload where
  | todoP (t : Todo)
  | indexP (i : Int)
  | todosP (l : List Todo)
deriving DecidableEq, Repr

/-- A dispatched action `{type, payload}`.  The tag is a free-form string,
exactly as in the source. -/
structure Action where
  type : String
  payload : Payload
deriving DecidableEq, Repr

/-- The state of the `list` slice of the store: `{ todos: Todo[] }`. -/
structure ListState where
  todos : List Todo
deriving DecidableEq, Repr

/-- `state.todos.filter((t, index) => index !== action.payload)` from the
`REMOVE_TODO` case of the reducer. -/
def removeFilter (todos : List Todo) (i : Int) : List Todo :=
  (todos.enum.filter fun p => decide ((p.1 : Int) ≠ i)).map Prod.snd

/-- Value-level embedding of the `list` reducer in src/store/index.ts:

`(state = {todos: []}, action) => switch (action.type) { ... }`

`none` models being called with `undefined` state, in which case the default
parameter `{todos: []}` applies.  The payload-shape fallthrough arms are
unreachable at the dispatch sites in the source, which always pair each tag
with the matching payload shape; they return the state unchanged.
This embedding tracks the contents of `state.todos`; reference identity and
mutation are tracked by `reducerRef` below. -/
def reducer (state : Option ListState) (action : Action) : ListState :=
  let s := state.getD ⟨[]⟩
  if action.type = "ADD_TODO" then
    match action.payload with
    | .todoP t => ⟨s.todos ++ [t]⟩
    | _ => s
  else if action.type = "REMOVE_TODO" then
    match action.payload with
    | .indexP i => ⟨removeFilter s.todos i⟩
    | _ => s
  else if action.type = "CHANGE_TODOS" then
    match action.payload with
    | .todosP l => ⟨l⟩
    | _ => s
  else
    s

/-- A heap of JavaScript arrays: address `a` holds the contents of the array
allocated at `a`. -/
abbrev Heap := List (List Todo)

/-- The store's `list` state object, holding a reference (address) to its
`todos` array. -/
structure StateObj where
  todos : Nat
deriving DecidableEq, Repr

/-- Reference-level payload: a `CHANGE_TODOS` dispatch hands over a reference
to an array the caller built. -/
inductive PayloadRef where
  | todoP (t : Todo)
  | indexP (i : Int)
  | arrP (a : Nat)
deriving DecidableEq, Repr

/-- Reference-level action. -/
structure ActionRef where
  type : String
  payload : PayloadRef
deriving DecidableEq, Repr

/-- Reference-level embedding of the same reducer switch, making array
identity and mutation explicit:

* `ADD_TODO`: `const newState = state` copies only the reference, and
  `newState.todos.push(action.payload)` mutates the array at the existing
  address in place; the very same state object is returned.
* `REMOVE_TODO`: `{...state, todos: state.todos.filter(...)}` allocates a
  fresh array (at address `heap.length`) and a fresh state object.
* `CHANGE_TODOS`: `{todos: action.payload}` is a fresh state object whose
  `todos` reference is the caller-supplied array.
* default: the same state object is returned and the heap is untouched. -/
def reducerRef (heap : Heap) (state : StateObj) (action : ActionRef) :
    Heap × StateObj :=
  if action.type = "ADD_TODO" then
    match action.payload with
    | .todoP t => (heap.set state.todos (heap.getD state.todos [] ++ [t]), state)
    | _ => (heap, state)
  else if action.type = "REMOVE_TODO" then
    match action.payload with
    | .indexP i =>
        (heap ++ [removeFilter (heap.getD state.todos []) i], ⟨heap.length⟩)
    | _ => (heap, state)
  else if action.type = "CHANGE_TODOS" then
    match action.payload with
    | .arrP a => (heap, ⟨a⟩)
    | _ => (heap, state)
  else
    (heap, state)

/-- The `window.allTodosIsDone` computation in `Index.render`
(src/components/MainApp/index.tsx): the flag is set to `true`, then a `map`
over the todos overwrites it with `false` or `true` according to each
element's `isDone` in turn, so the final value is the last element's
`isDone` (or the initial `true` on an empty list). -/
def allTodosIsDone (todos : List Todo) : Bool :=
  todos.foldl (fun _flag t => if !t.isDone then false else true) true

/-- Modelled from the spec (the derived all-done computation, for comparison
with `allTodosIsDone`): `allDone(list) = length(list) > 0 AND every element
has isDone == true`. -/
def allDoneSpec (todos : List Todo) : Bool :=
  decide (0 < todos.length) && todos.all (fun t => t.isDone)

/-- The `changedTodos` array built by the toggle checkbox `onChange` handler
in `Index.render`: `this.props.todos.map((t, index) => { const res = {...t};
if (index == idx) { res.isDone = !t.isDone; } return res; })`.  Every
element is a fresh spread copy; value-level the copy equals the original. -/
def toggleChangedTodos (todos : List Todo) (idx : Int) : List Todo :=
  todos.enum.map fun p =>
    if (p.1 : Int) = idx then { p.2 with isDone := !p.2.isDone } else p.2

/-- The `addTodo` dispatcher from `mapDispatchToProps` in MainApp. -/
def addTodoAction (t : Todo) : Action :=
  ⟨"ADD_TODO", .todoP t⟩

/-- The `changeTodo` dispatcher from `mapDispatchToProps` in MainApp. -/
def changeTodoAction (todos : List Todo) : Action :=
  ⟨"CHANGE_TODOS", .todosP todos⟩

/-- The `removeTodo` dispatcher from `mapDispatchToProps` in MainApp; note
the tag is the plural string `REMOVE_TODOS`, exactly as in the source. -/
def removeTodoAction (i : Int) : Action :=
  ⟨"REMOVE_TODOS", .indexP i⟩

/-- The `changedTodos` array built by `UserSelect.handleChange`
(src/components/UserSelect/index.tsx): `todos.map((t, index) => { const res =
{...t}; if (index == idx) { res.user = e.target.value; } return res; })` —
the select element's value is a string and is stored unconverted. -/
def userSelectChangedTodos (todos : List Todo) (idx : Int) (value : String) :
    List Todo :=
  todos.enum.map fun p =>
    if (p.1 : Int) = idx then { p.2 with user := some (JsVal.str value) } else p.2

/-- The action dispatched by `UserSelect.handleChange`; note the tag is the
singular string `CHANGE_TODO`, exactly as in the source. -/
def userSelectChangeAction (todos : List Todo) (idx : Int) (value : String) :
    Action :=
  ⟨"CHANGE_TODO", .todosP (userSelectChangedTodos todos idx value)⟩

/-- The local component state of `InputNewTodo` (`{ value: string }`). -/
structure InputNewTodoState where
  value : String
deriving DecidableEq, Repr

/-- An observable call the widget makes to its parent: `onSubmit(todo)` or
`onChange(text)`. -/
inductive Emission where
  | submit (t : Todo)
  | change (s : String)
deriving DecidableEq, Repr

/-- `InputNewTodo.handleKeyDown`: keys other than Enter (keyCode 13) return
immediately; otherwise `var val = this.state.value.trim()` is computed (the
component never initialises `this.state`, so before the first prop update it
is `undefined` — modelled by `none` — and the field access throws), and if
`val` is truthy (non-empty) the widget calls `onSubmit` with the UNTRIMMED
`this.state.value` as title and then `onChange('')`; otherwise it does
nothing.  The result lists the emitted calls in order. -/
def handleKeyDown (st : Option InputNewTodoState) (keyCode : Nat) :
    Except String (List Emission) :=
  if keyCode ≠ 13 then .ok []
  else
    match st with
    | none => .error "TypeError: cannot read properties of undefined"
    | some s =>
      let val := jsTrim s.value
      if val ≠ "" then
        .ok [.submit { title := s.value, user := none, isDone := false },
             .change ""]
      else
        .ok []

/-- The first component of an entry of `List.enum` is a valid index. -/
theorem fst_lt_of_mem_enum {α : Type} {l : List α} {p : Nat × α}
    (hp : p ∈ l.enum) : p.1 < l.length := by
  have h' := List.mem_enum_iff_getElem?.mp hp
  exact (List.getElem?_eq_some.mp h').1

/-- The toggle handler's map preserves the length of the list. -/
theorem toggleChangedTodos_length (L : List Todo) (idx : Int) :
    (toggleChangedTodos L idx).length = L.length := by
  simp [toggleChangedTodos, List.enum_length]

/-- With an out-of-range index the toggle handler's map copies every element
unchanged. -/
theorem toggleChangedTodos_out (L : List Todo) (idx : Int)
    (h : idx < 0 ∨ (L.length : Int) ≤ idx) : toggleChangedTodos L idx = L := by
  unfold toggleChangedTodos
  have hall : ∀ p ∈ L.enum,
      (if ((p.1 : ℕ) : Int) = idx then { p.2 with isDone := !p.2.isDone }
       else p.2) = p.2 := by
    intro p hp
    have hlt : p.1 < L.length := fst_lt_of_mem_enum hp
    rw [if_neg]
    omega
  calc (L.enum.map fun p =>
          if ((p.1 : ℕ) : Int) = idx then { p.2 with isDone := !p.2.isDone }
          else p.2)
      = L.enum.map Prod.snd := List.map_congr_left hall
    _ = L := List.enum_map_snd L

/-- With an out-of-range index the `REMOVE_TODO` filter keeps every element. -/
theorem removeFilter_out (L : List Todo) (i : Int)
    (h : i < 0 ∨ (L.length : Int) ≤ i) : removeFilter L i = L := by
  unfold removeFilter
  have hall : ∀ p ∈ L.enum, decide ((p.1 : Int) ≠ i) = true := by
    intro p hp
    have hlt : p.1 < L.length := fst_lt_of_mem_enum hp
    simp only [decide_eq_true_eq]
    omega
  rw [List.filter_eq_self.mpr hall, List.enum_map_snd]

/-- Pointwise description of the toggle handler's result list. -/
theorem toggleChangedTodos_get (L : List Todo) (idx : Int) (j : Nat)
    (hj : j < L.length) :
    (toggleChangedTodos L idx).get
        ⟨j, by rw [toggleChangedTodos_length]; exact hj⟩ =
      if (j : Int) = idx then
        { L.get ⟨j, hj⟩ with isDone := !(L.get ⟨j, hj⟩).isDone }
      else L.get ⟨j, hj⟩ := by
  simp [toggleChangedTodos, List.get_eq_getElem, List.getElem_map,
    List.getElem_enum]

/-- C1: the claim states that the `ADD_TODO` case returns a NEW list
object/reference equal to the old list with the payload appended, without
mutating the previously held list.  Evaluating the reference-level reducer at
a concrete input shows the opposite: starting from a heap with one empty
todos array at address 0 and a state object referencing it, the `ADD_TODO`
case returns a state object whose `todos` reference is still address 0 (the
same reference, not a new one), and the array at address 0 — the old
snapshot — now contains the pushed todo. -/
theorem addTodoPushMutatesInPlace :
    (reducerRef [[]] ⟨0⟩ ⟨"ADD_TODO", .todoP ⟨"a", none, false⟩⟩).2.todos
        = (0 : Nat) ∧
    (reducerRef [[]] ⟨0⟩ ⟨"ADD_TODO", .todoP ⟨"a", none, false⟩⟩).1.getD 0 []
        = [⟨"a", none, false⟩] := by
  decide

/-- C2: the claim states that the derived all-done flag equals
`length(list) > 0 AND every element isDone`, with `allDone([]) = false` and
`allDone([{isDone:false},{isDone:true}]) = false`.  The code's computation
(each map iteration overwrites the flag with the current element's `isDone`)
disagrees on both stated test vectors: it yields `true` on the empty list and
`true` when only the last element is done. -/
theorem allTodosIsDoneOverwrites :
    allTodosIsDone [] = true ∧ allDoneSpec [] = false ∧
    allTodosIsDone [⟨"a", none, false⟩, ⟨"b", none, true⟩] = true ∧
    allDoneSpec [⟨"a", none, false⟩, ⟨"b", none, true⟩] = false := by
  decide

/-- C3: the claim states that confirming the input widget on a draft whose
trimmed form is non-empty emits one add request carrying the TRIMMED title.
Evaluating `handleKeyDown` on the draft "  Buy milk  " shows the widget does
emit exactly one submit followed by clearing the pending string, but the
submitted title is the untrimmed `this.state.value`, which differs from the
trimmed form "Buy milk". -/
theorem inputConfirmSubmitsUntrimmedTitle :
    handleKeyDown (some ⟨"  Buy milk  "⟩) 13
      = .ok [.submit ⟨"  Buy milk  ", none, false⟩, .change ""] ∧
    jsTrim "  Buy milk  " = "Buy milk" ∧
    ("  Buy milk  " : String) ≠ "Buy milk" :=
  ⟨rfl, by decide, by decide⟩

/-- C4: the claim states that a selection change commits a list whose todo at
the selected index has `user` set to the numeric form of the chosen id.
Evaluating the code at list `[{title:"a", isDone:false}]`, index 0, selected
value "5" shows (i) the locally built list stores the raw DOM string "5",
not a number, and (ii) the dispatch uses tag `CHANGE_TODO`, which the reducer
does not handle, so the committed store state is unchanged — the assignment
never reaches the store at all. -/
theorem assignDispatchTagMismatch :
    userSelectChangedTodos [⟨"a", none, false⟩] 0 "5"
      = [⟨"a", some (JsVal.str "5"), false⟩] ∧
    (userSelectChangeAction [⟨"a", none, false⟩] 0 "5").type = "CHANGE_TODO" ∧
    reducer (some ⟨[⟨"a", none, false⟩]⟩)
        (userSelectChangeAction [⟨"a", none, false⟩] 0 "5")
      = ⟨[⟨"a", none, false⟩]⟩ :=
  ⟨by decide, rfl, by decide⟩

/-- C5: for every list `L` and in-range index `i`, the toggle handler's list,
committed verbatim by the `CHANGE_TODOS` dispatch, has the same length as
`L`, flips `isDone` at position `i`, and is value-equal to `L` at every other
position (the handler builds fresh spread copies, so no element of `L` is
written to). -/
theorem toggleAtFrameCorrect (L : List Todo) (i : Nat) (h : i < L.length) :
    (reducer (some ⟨L⟩)
        (changeTodoAction (toggleChangedTodos L (i : Int)))).todos
      = toggleChangedTodos L (i : Int)
    ∧ (toggleChangedTodos L (i : Int)).length = L.length
    ∧ ∀ (j : Nat) (hj : j < L.length),
        (toggleChangedTodos L (i : Int)).get
            ⟨j, by rw [toggleChangedTodos_length]; exact hj⟩ =
          if j = i then
            { L.get ⟨j, hj⟩ with isDone := !(L.get ⟨j, hj⟩).isDone }
          else L.get ⟨j, hj⟩ := by
  refine ⟨rfl, toggleChangedTodos_length L (i : Int), ?_⟩
  intro j hj
  rw [toggleChangedTodos_get L (i : Int) j hj]
  simp only [Nat.cast_inj]

/-- Witness for C5 at the concrete list `[{“a”,false}, {“b”,true}]` and
index 0. -/
theorem toggleAtFrameCorrectWitness :
    0 < ([⟨"a", none, false⟩, ⟨"b", none, true⟩] : List Todo).length ∧
    ((reducer (some ⟨[⟨"a", none, false⟩, ⟨"b", none, true⟩]⟩)
        (changeTodoAction
          (toggleChangedTodos [⟨"a", none, false⟩, ⟨"b", none, true⟩]
            ((0 : Nat) : Int)))).todos
      = toggleChangedTodos [⟨"a", none, false⟩, ⟨"b", none, true⟩]
          ((0 : Nat) : Int)
    ∧ (toggleChangedTodos [⟨"a", none, false⟩, ⟨"b", none, true⟩]
          ((0 : Nat) : Int)).length
        = ([⟨"a", none, false⟩, ⟨"b", none, true⟩] : List Todo).length
    ∧ ∀ (j : Nat)
        (hj : j < ([⟨"a", none, false⟩, ⟨"b", none, true⟩] : List Todo).length),
        (toggleChangedTodos [⟨"a", none, false⟩, ⟨"b", none, true⟩]
            ((0 : Nat) : Int)).get
            ⟨j, by rw [toggleChangedTodos_length]; exact hj⟩ =
          if j = 0 then
            { ([⟨"a", none, false⟩, ⟨"b", none, true⟩] : List Todo).get ⟨j, hj⟩
              with isDone :=
                !(([⟨"a", none, false⟩, ⟨"b", none, true⟩] : List Todo).get
                    ⟨j, hj⟩).isDone }
          else ([⟨"a", none, false⟩, ⟨"b", none, true⟩] : List Todo).get
            ⟨j, hj⟩) :=
  ⟨by decide,
   toggleAtFrameCorrect [⟨"a", none, false⟩, ⟨"b", none, true⟩] 0 (by decide)⟩

/-- C6: with an out-of-range index (negative or at least the length), the
`REMOVE_TODO` reducer case, the toggle handler, and the assignment dispatch
all leave the committed todo list equal to the input list (every embedded
operation is a total function: the underlying `filter` and `map` never
throw); in particular a remove that has shrunk the list to length at most
`j` followed by a second remove at the same index `j` is a no-op on the
result. -/
theorem outOfRangeOpsNoOp (L M : List Todo) (i j : Int) (v : String)
    (h : i < 0 ∨ (L.length : Int) ≤ i)
    (h0 : 0 ≤ j) (hj : j < (M.length : Int))
    (hshrunk : ((removeFilter M j).length : Int) ≤ j) :
    (reducer (some ⟨L⟩) ⟨"REMOVE_TODO", .indexP i⟩).todos = L
    ∧ toggleChangedTodos L i = L
    ∧ (reducer (some ⟨L⟩) (userSelectChangeAction L i v)).todos = L
    ∧ removeFilter (removeFilter M j) j = removeFilter M j := by
  refine ⟨?_, toggleChangedTodos_out L i h, rfl, ?_⟩
  · show removeFilter L i = L
    exact removeFilter_out L i h
  · exact removeFilter_out (removeFilter M j) j (Or.inr hshrunk)

/-- Witness for C6: out-of-range index 5 on a one-element list, and the
double remove at index 0 on a one-element list (valid the first time, out of
range on the shrunken result). -/
theorem outOfRangeOpsNoOpWitness :
    ((5 : Int) < 0 ∨ (([⟨"a", none, false⟩] : List Todo).length : Int) ≤ 5) ∧
    (0 : Int) ≤ 0 ∧
    (0 : Int) < (([⟨"b", none, true⟩] : List Todo).length : Int) ∧
    ((removeFilter [⟨"b", none, true⟩] 0).length : Int) ≤ 0 ∧
    ((reducer (some ⟨[⟨"a", none, false⟩]⟩) ⟨"REMOVE_TODO", .indexP 5⟩).todos
        = [⟨"a", none, false⟩]
    ∧ toggleChangedTodos [⟨"a", none, false⟩] 5 = [⟨"a", none, false⟩]
    ∧ (reducer (some ⟨[⟨"a", none, false⟩]⟩)
          (userSelectChangeAction [⟨"a", none, false⟩] 5 "x")).todos
        = [⟨"a", none, false⟩]
    ∧ removeFilter (removeFilter [⟨"b", none, true⟩] 0) 0
        = removeFilter [⟨"b", none, true⟩] 0) :=
  ⟨by decide, by decide, by decide, by decide,
   outOfRangeOpsNoOp [⟨"a", none, false⟩] [⟨"b", none, true⟩] 5 0 "x"
     (by decide) (by decide) (by decide) (by decide)⟩

/-- C7: confirming the input widget (Enter, keyCode 13) on a draft whose
trimmed form is empty produces no emissions at all — no `onSubmit` (zero add
requests) and no `onChange` (the pending string is left exactly as it was). -/
theorem emptyDraftConfirmNoEmission (s : String) (h : jsTrim s = "") :
    handleKeyDown (some ⟨s⟩) 13 = .ok [] := by
  simp [handleKeyDown, h]

/-- Witness for C7 at the whitespace-only draft "   ". -/
theorem emptyDraftConfirmNoEmissionWitness :
    jsTrim "   " = "" ∧ handleKeyDown (some ⟨"   "⟩) 13 = .ok [] :=
  ⟨by decide, emptyDraftConfirmNoEmission "   " (by decide)⟩

/-- C8: an action whose tag is none of the three recognized tags falls into
the reducer's default case: value-level the state is returned unchanged, and
reference-level the very same state object is returned and the heap is
untouched (no mutation). -/
theorem unrecognizedTagNoOp (S : ListState) (heap : Heap) (st : StateObj)
    (a : Action) (ar : ActionRef)
    (h : a.type ≠ "ADD_TODO" ∧ a.type ≠ "REMOVE_TODO" ∧
      a.type ≠ "CHANGE_TODOS")
    (hr : ar.type ≠ "ADD_TODO" ∧ ar.type ≠ "REMOVE_TODO" ∧
      ar.type ≠ "CHANGE_TODOS") :
    reducer (some S) a = S ∧ reducerRef heap st ar = (heap, st) := by
  obtain ⟨h1, h2, h3⟩ := h
  obtain ⟨g1, g2, g3⟩ := hr
  constructor
  · simp [reducer, h1, h2, h3]
  · simp [reducerRef, g1, g2, g3]

/-- Witness for C8 at a concrete unrecognized tag. -/
theorem unrecognizedTagNoOpWitness :
    ((("SOME_FUTURE_TAG" : String) ≠ "ADD_TODO" ∧
      ("SOME_FUTURE_TAG" : String) ≠ "REMOVE_TODO" ∧
      ("SOME_FUTURE_TAG" : String) ≠ "CHANGE_TODOS") ∧
     (("SOME_FUTURE_TAG" : String) ≠ "ADD_TODO" ∧
      ("SOME_FUTURE_TAG" : String) ≠ "REMOVE_TODO" ∧
      ("SOME_FUTURE_TAG" : String) ≠ "CHANGE_TODOS")) ∧
    reducer (some ⟨[⟨"a", none, false⟩]⟩) ⟨"SOME_FUTURE_TAG", .indexP 0⟩
      = ⟨[⟨"a", none, false⟩]⟩ ∧
    reducerRef [[⟨"a", none, false⟩]] ⟨0⟩ ⟨"SOME_FUTURE_TAG", .indexP 0⟩
      = ([[⟨"a", none, false⟩]], ⟨0⟩) :=
  ⟨⟨⟨by decide, by decide, by decide⟩, ⟨by decide, by decide, by decide⟩⟩,
   unrecognizedTagNoOp ⟨[⟨"a", none, false⟩]⟩ [[⟨"a", none, false⟩]] ⟨0⟩
     ⟨"SOME_FUTURE_TAG", .indexP 0⟩ ⟨"SOME_FUTURE_TAG", .indexP 0⟩
     ⟨by decide, by decide, by decide⟩ ⟨by decide, by decide, by decide⟩⟩

/-- C9: the `removeTodo` callback wired in MainApp dispatches the tag
`REMOVE_TODOS` (plural), which the reducer does not handle (it handles only
`REMOVE_TODO`), so for every state and every index the dispatch leaves the
store state unchanged, value-level and reference-level alike: removal is
unreachable through this UI path. -/
theorem removeTodoDispatchUnhandled (S : ListState) (i : Int)
    (heap : Heap) (st : StateObj) :
    reducer (some S) (removeTodoAction i) = S ∧
    reducerRef heap st ⟨"REMOVE_TODOS", .indexP i⟩ = (heap, st) :=
  ⟨rfl, rfl⟩

/-- C10: invoked with an undefined state — as happens once at store
initialization, where the dispatched init action carries a tag the switch
does not recognize — the reducer's default parameter supplies
`{todos: []}` and the default case returns it: the application starts with
an empty todo list. -/
theorem undefinedStateInitializesEmpty (a : Action)
    (h : a.type ≠ "ADD_TODO" ∧ a.type ≠ "REMOVE_TODO" ∧
      a.type ≠ "CHANGE_TODOS") :
    reducer none a = ⟨[]⟩ := by
  obtain ⟨h1, h2, h3⟩ := h
  simp [reducer, h1, h2, h3]

/-- Witness for C10 at the redux init action tag. -/
theorem undefinedStateInitializesEmptyWitness :
    (("@@redux/INIT" : String) ≠ "ADD_TODO" ∧
     ("@@redux/INIT" : String) ≠ "REMOVE_TODO" ∧
     ("@@redux/INIT" : String) ≠ "CHANGE_TODOS") ∧
    reducer none ⟨"@@redux/INIT", .indexP 0⟩ = ⟨[]⟩ :=
  ⟨⟨by decide, by decide, by decide⟩,
   undefinedStateInitializesEmpty ⟨"@@redux/INIT", .indexP 0⟩
     ⟨by decide, by decide, by decide⟩⟩

end TodoApp
